import Mathlib

/-!
Shallow embedding of the tool-augmented answer-generation engine of the
ragchatbot repository, centred on `backend/ai_generator.py`
(`AIGenerator.generate_response`, `_execute_tools`, `_extract_text_response`,
`_final_call_without_tools`).

The LLM service is modelled as an oracle `LLM : Nat → ModelResponse` mapping
the index of an outbound call (0-based, in call order) to the model response
it returns; `generate_response` returns both the final answer string and the
ordered trace of outbound API requests, so that call counts and request
contents can be stated as theorems.
-/

set_option autoImplicit false

namespace RagChatbot

/-- The kwargs dictionary passed to a tool call (`content_block.input`). -/
abbrev ToolInput := List (String × String)

/-- A content block of a model response: either a text block (which has a
`text` attribute) or a tool-call block (`type == "tool_use"`, with `id`,
`name`, `input`). -/
inductive ContentBlock where
  | text (t : String)
  | toolUse (id name : String) (input : ToolInput)
  deriving DecidableEq, Repr

/-- A model response: `stop_reason` and `content` blocks, as consumed by
`generate_response`. -/
structure ModelResponse where
  stop_reason : String
  content : List ContentBlock
  deriving DecidableEq, Repr

/-- One `tool_result` dictionary built by `_execute_tools`.  In the Python
code the `is_error` key is present (and `True`) only on the failure path;
we model its absence as `is_error = false`. -/
structure ToolResult where
  tool_use_id : String
  content : String
  is_error : Bool
  deriving DecidableEq, Repr

/-- The content of a conversation message: the initial user query is a plain
string, an appended assistant turn carries raw response content blocks, and
the synthetic user turn carries tool results. -/
inductive MessageContent where
  | str (s : String)
  | blocks (bs : List ContentBlock)
  | results (rs : List ToolResult)
  deriving DecidableEq, Repr

/-- A conversation message (`{"role": ..., "content": ...}`). -/
structure Message where
  role : String
  content : MessageContent
  deriving DecidableEq, Repr

/-- A tool schema as passed in the `tools` parameter.  The orchestrator
never inspects it, so its contents are irrelevant; a string stands in for
the schema dictionary. -/
abbrev ToolDef := String

/-- An outbound request to the LLM service (the keyword arguments of
`client.messages.create`).  Absent `tools` / `tool_choice` keys are
modelled as `none`. -/
structure APIRequest where
  model : String
  temperature : Nat
  max_tokens : Nat
  messages : List Message
  system : String
  tools : Option (List ToolDef)
  tool_choice : Option String
  deriving DecidableEq, Repr

/-- The LLM oracle: the response returned by the service to the n-th
outbound call of this query (0-based).  The model behaviour is an external
nondeterministic input, so all theorems quantify over this oracle. -/
abbrev LLM := Nat → ModelResponse

/-- A tool manager: `execute_tool(name, **kwargs)` either returns a result
string or raises an exception carrying a message (`Except.error`). -/
abbrev ToolManager := String → ToolInput → Except String String

/-- `AIGenerator.MAX_TOOL_ROUNDS`. -/
def MAX_TOOL_ROUNDS : Nat := 2

/-- `AIGenerator.SYSTEM_PROMPT`, the static system prompt (the orchestrator
never inspects it, only concatenates it into the system content). -/
def SYSTEM_PROMPT : String :=
  "You are an AI assistant specialized in course materials and educational content with access to tools for course information.\n\nAvailable Tools:\n1. **search_course_content**: Search course materials for specific content or educational details\n2. **get_course_outline**: Get course structure including title, link, and complete lesson list with links\n\nTool Usage Guidelines:\n- Use **search_course_content** for questions about specific course content, concepts, or detailed material\n- Use **get_course_outline** for questions about course structure, lesson lists, what topics a course covers, or course outlines\n- **Up to 2 sequential tool rounds available** - Use multiple rounds when one tool\x27s results inform the next search (e.g., get course outline first, then search based on lesson title)\n- Synthesize all tool results into accurate, fact-based responses\n- If a tool yields no results, state this clearly without offering alternatives\n\nResponse Protocol:\n- **General knowledge questions**: Answer using existing knowledge without tools\n- **Course-specific questions**: Use appropriate tool first, then answer\n- **Multi-step queries**: Chain tool calls when needed (e.g., first get outline to find lesson title, then search for related content)\n- **No meta-commentary**:\n  - Provide direct answers only â€” no reasoning process, tool explanations, or question-type analysis\n  - Do not mention \"based on the search results\" or \"based on the outline\"\n\nAll responses must be:\n1. **Brief, Concise and focused** - Get to the point quickly\n2. **Educational** - Maintain instructional value\n3. **Clear** - Use accessible language\n4. **Example-supported** - Include relevant examples when they aid understanding\nProvide only the direct answer to what was asked.\n"

/-- The constructor state of `AIGenerator` that the orchestration uses:
`self.model` (feeding `base_params`); `temperature = 0` and
`max_tokens = 800` are fixed in `base_params`. -/
structure AIGenerator where
  model : String
  deriving DecidableEq, Repr

/-- `_extract_text_response`: collect `block.text` for every block that has
a `text` attribute (text blocks have one, tool-call blocks do not) and join
with newlines; the empty-list case also yields the empty string. -/
def extractTextResponse (response : ModelResponse) : String :=
  String.intercalate "\n" (response.content.filterMap fun b =>
    match b with
    | ContentBlock.text t => some t
    | ContentBlock.toolUse _ _ _ => none)

/-- The loop body of `_execute_tools`: fold one content block into the
accumulated `(tool_results, has_critical_error)` pair. -/
def executeToolsStep (tool_manager : ToolManager)
    (acc : List ToolResult × Bool) (content_block : ContentBlock) :
    List ToolResult × Bool :=
  match content_block with
  | ContentBlock.toolUse id name input =>
    match tool_manager name input with
    | Except.ok result =>
      (acc.1 ++ [{ tool_use_id := id, content := result, is_error := false }],
       acc.2)
    | Except.error e =>
      (acc.1 ++ [{ tool_use_id := id,
                   content := "Tool execution error: " ++ e,
                   is_error := true }],
       true)
  | ContentBlock.text _ => acc

/-- `_execute_tools`: execute every tool-call block of the response in
order, converting an exception into an error-tagged result and recording
whether any call failed. -/
def executeTools (response : ModelResponse) (tool_manager : ToolManager) :
    List ToolResult × Bool :=
  response.content.foldl (executeToolsStep tool_manager) ([], false)

/-- Building the system content: the conversation history is folded into
the system instruction when truthy (Python `if conversation_history`:
`None` and the empty string are both falsy). -/
def buildSystemContent (conversation_history : Option String) : String :=
  match conversation_history with
  | some h =>
    if h = "" then SYSTEM_PROMPT
    else SYSTEM_PROMPT ++ "\n\nPrevious conversation:\n" ++ h
  | none => SYSTEM_PROMPT

/-- The `api_params` of an in-loop call: `tools` and `tool_choice` keys are
attached only when the `tools` argument is truthy (non-`None` and
non-empty). -/
def mkLoopRequest (gen : AIGenerator) (tools : Option (List ToolDef))
    (messages : List Message) (system_content : String) : APIRequest :=
  match tools with
  | some l =>
    if l.isEmpty then
      { model := gen.model, temperature := 0, max_tokens := 800,
        messages := messages, system := system_content,
        tools := none, tool_choice := none }
    else
      { model := gen.model, temperature := 0, max_tokens := 800,
        messages := messages, system := system_content,
        tools := some l, tool_choice := some "auto" }
  | none =>
    { model := gen.model, temperature := 0, max_tokens := 800,
      messages := messages, system := system_content,
      tools := none, tool_choice := none }

/-- The `final_params` of `_final_call_without_tools`: no `tools` and no
`tool_choice` key. -/
def mkFinalRequest (gen : AIGenerator) (messages : List Message)
    (system_content : String) : APIRequest :=
  { model := gen.model, temperature := 0, max_tokens := 800,
    messages := messages, system := system_content,
    tools := none, tool_choice := none }

/-- `_final_call_without_tools`: one more call with no tool schemas, whose
text is extracted and returned.  `callCount` is the number of calls already
made, so the oracle answers this request with `llm callCount`. -/
def finalCallWithoutTools (gen : AIGenerator) (llm : LLM)
    (messages : List Message) (system_content : String) (callCount : Nat) :
    String × List APIRequest :=
  (extractTextResponse (llm callCount),
   [mkFinalRequest gen messages system_content])

/-- The `while round_count < MAX_TOOL_ROUNDS` loop of `generate_response`.
`roundsLeft = MAX_TOOL_ROUNDS - round_count` counts remaining iterations;
`callCount` counts calls already made.  Returns the final answer and the
trace of outbound requests made from this point on, in order. -/
def generateLoop (gen : AIGenerator) (llm : LLM)
    (tool_manager : Option ToolManager) (tools : Option (List ToolDef))
    (system_content : String) (messages : List Message)
    (callCount roundsLeft : Nat) : String × List APIRequest :=
  match roundsLeft with
  | 0 => finalCallWithoutTools gen llm messages system_content callCount
  | n + 1 =>
    let response := llm callCount
    if response.stop_reason = "end_turn" ∨ response.stop_reason = "max_tokens" then
      (extractTextResponse response,
       [mkLoopRequest gen tools messages system_content])
    else
      match tool_manager with
      | some mgr =>
        if response.stop_reason = "tool_use" then
          let tr := executeTools response mgr
          let messages2 := messages ++
            [{ role := "assistant", content := MessageContent.blocks response.content },
             { role := "user", content := MessageContent.results tr.1 }]
          if tr.2 then
            ((finalCallWithoutTools gen llm messages2 system_content (callCount + 1)).1,
             mkLoopRequest gen tools messages system_content ::
               (finalCallWithoutTools gen llm messages2 system_content (callCount + 1)).2)
          else
            ((generateLoop gen llm tool_manager tools system_content messages2
                (callCount + 1) n).1,
             mkLoopRequest gen tools messages system_content ::
               (generateLoop gen llm tool_manager tools system_content messages2
                 (callCount + 1) n).2)
        else
          (extractTextResponse response,
           [mkLoopRequest gen tools messages system_content])
      | none =>
        (extractTextResponse response,
         [mkLoopRequest gen tools messages system_content])

/-- `AIGenerator.generate_response`: build the system content, seed the
conversation with the single user turn, and run the bounded loop.  Returns
the answer string and the ordered trace of outbound LLM requests. -/
def generate_response (gen : AIGenerator) (llm : LLM) (query : String)
    (conversation_history : Option String) (tools : Option (List ToolDef))
    (tool_manager : Option ToolManager) : String × List APIRequest :=
  generateLoop gen llm tool_manager tools
    (buildSystemContent conversation_history)
    [{ role := "user", content := MessageContent.str query }]
    0 MAX_TOOL_ROUNDS

/-! ### Characterisation of `_execute_tools` -/

/-- The result entry a single content block contributes in `_execute_tools`:
a text block contributes nothing; a tool-call block contributes exactly one
entry, a plain one on success and an error-tagged one when the manager
raises. -/
def resultFor (tool_manager : ToolManager) (b : ContentBlock) :
    Option ToolResult :=
  match b with
  | ContentBlock.toolUse id name input =>
    match tool_manager name input with
    | Except.ok result =>
      some { tool_use_id := id, content := result, is_error := false }
    | Except.error e =>
      some { tool_use_id := id, content := "Tool execution error: " ++ e,
             is_error := true }
  | ContentBlock.text _ => none

/-- Whether executing a single content block raises an exception. -/
def blockRaises (tool_manager : ToolManager) (b : ContentBlock) : Bool :=
  match b with
  | ContentBlock.toolUse _ name input =>
    match tool_manager name input with
    | Except.ok _ => false
    | Except.error _ => true
  | ContentBlock.text _ => false

theorem foldl_executeToolsStep (mgr : ToolManager) (l : List ContentBlock) :
    ∀ acc : List ToolResult × Bool,
      l.foldl (executeToolsStep mgr) acc =
        (acc.1 ++ l.filterMap (resultFor mgr),
         acc.2 || l.any (blockRaises mgr)) := by
  induction l with
  | nil => intro acc; simp
  | cons b t ih =>
    intro acc
    cases b with
    | text s => simpa [executeToolsStep, resultFor, blockRaises] using ih acc
    | toolUse id name input =>
      cases h : mgr name input with
      | ok r => simp [executeToolsStep, resultFor, blockRaises, h, ih]
      | error e => simp [executeToolsStep, resultFor, blockRaises, h, ih]

/-- `_execute_tools` produces exactly the per-block results, in block order,
and its error flag records whether any block raised. -/
theorem executeTools_eq (response : ModelResponse) (mgr : ToolManager) :
    executeTools response mgr =
      (response.content.filterMap (resultFor mgr),
       response.content.any (blockRaises mgr)) := by
  simp [executeTools, foldl_executeToolsStep]

theorem filterMap_resultFor_ids (mgr : ToolManager) (l : List ContentBlock) :
    (l.filterMap (resultFor mgr)).map ToolResult.tool_use_id =
      l.filterMap (fun b =>
        match b with
        | ContentBlock.toolUse id _ _ => some id
        | ContentBlock.text _ => none) := by
  induction l with
  | nil => rfl
  | cons b t ih =>
    cases b with
    | text s => simpa [resultFor] using ih
    | toolUse id name input =>
      cases h : mgr name input <;> simp [resultFor, h, ih]

/-- C7: for every tool-call-requesting response, tool execution produces
exactly one `tool_result` entry per tool-call block, in the order the
blocks appear in the response, each carrying a `tool_use_id` equal to the
originating block's id; content blocks that are not tool-call blocks
produce no result entry.  (The list of result identifiers equals the list
of tool-call block identifiers, in order.) -/
theorem claim_C7_one_result_per_tool_block (response : ModelResponse)
    (mgr : ToolManager) :
    (executeTools response mgr).1.map ToolResult.tool_use_id =
      response.content.filterMap (fun b =>
        match b with
        | ContentBlock.toolUse id _ _ => some id
        | ContentBlock.text _ => none) := by
  rw [executeTools_eq]
  exact filterMap_resultFor_ids mgr response.content

/-- C9: when one tool call in a response raises, every other tool-call
block of the same response is still executed and receives its own result
entry: the failing call's entry has content `"Tool execution error: "`
followed by the exception message and is flagged `is_error = true`, while
a successful call's entry carries the manager's result string and is not
flagged. -/
theorem claim_C9_error_tagged_result (response : ModelResponse)
    (mgr : ToolManager) (id1 name1 : String) (input1 : ToolInput)
    (id2 name2 : String) (input2 : ToolInput) (e r : String)
    (hmem1 : ContentBlock.toolUse id1 name1 input1 ∈ response.content)
    (herr : mgr name1 input1 = Except.error e)
    (hmem2 : ContentBlock.toolUse id2 name2 input2 ∈ response.content)
    (hok : mgr name2 input2 = Except.ok r) :
    ({ tool_use_id := id1, content := "Tool execution error: " ++ e,
       is_error := true } : ToolResult) ∈ (executeTools response mgr).1 ∧
    ({ tool_use_id := id2, content := r, is_error := false } : ToolResult)
      ∈ (executeTools response mgr).1 ∧
    (executeTools response mgr).2 = true := by
  rw [executeTools_eq]
  refine ⟨?_, ?_, ?_⟩
  · exact List.mem_filterMap.mpr
      ⟨ContentBlock.toolUse id1 name1 input1, hmem1, by simp [resultFor, herr]⟩
  · exact List.mem_filterMap.mpr
      ⟨ContentBlock.toolUse id2 name2 input2, hmem2, by simp [resultFor, hok]⟩
  · exact List.any_eq_true.mpr
      ⟨ContentBlock.toolUse id1 name1 input1, hmem1, by simp [blockRaises, herr]⟩

/-- A concrete response with one failing and one succeeding tool call. -/
def demoMixedResponse : ModelResponse :=
  { stop_reason := "tool_use",
    content := [ContentBlock.toolUse "t1" "bad_tool" [("query", "x")],
                ContentBlock.toolUse "t2" "good_tool" [("query", "y")]] }

/-- A concrete tool manager that raises on `bad_tool` and succeeds
otherwise. -/
def demoMixedManager : ToolManager := fun name _ =>
  if name = "bad_tool" then Except.error "boom" else Except.ok "fine"

theorem claim_C9_witness :
    ({ tool_use_id := "t1", content := "Tool execution error: " ++ "boom",
       is_error := true } : ToolResult)
        ∈ (executeTools demoMixedResponse demoMixedManager).1 ∧
    ({ tool_use_id := "t2", content := "fine", is_error := false } : ToolResult)
        ∈ (executeTools demoMixedResponse demoMixedManager).1 ∧
    (executeTools demoMixedResponse demoMixedManager).2 = true :=
  claim_C9_error_tagged_result demoMixedResponse demoMixedManager
    "t1" "bad_tool" [("query", "x")] "t2" "good_tool" [("query", "y")]
    "boom" "fine" (by simp [demoMixedResponse]) (by simp [demoMixedManager])
    (by simp [demoMixedResponse]) (by simp [demoMixedManager])

/-! ### Step lemmas for the orchestration loop -/

theorem mkLoopRequest_messages (gen : AIGenerator) (tools : Option (List ToolDef))
    (messages : List Message) (system_content : String) :
    (mkLoopRequest gen tools messages system_content).messages = messages := by
  cases tools with
  | none => rfl
  | some l => by_cases h : l.isEmpty <;> simp [mkLoopRequest, h]

theorem mkLoopRequest_system (gen : AIGenerator) (tools : Option (List ToolDef))
    (messages : List Message) (system_content : String) :
    (mkLoopRequest gen tools messages system_content).system = system_content := by
  cases tools with
  | none => rfl
  | some l => by_cases h : l.isEmpty <;> simp [mkLoopRequest, h]

/-- The two messages appended to the conversation by a tool round: the
assistant's raw tool-call content, then the synthetic user turn carrying
that round's tool results. -/
def toolRoundAppend (response : ModelResponse) (mgr : ToolManager) :
    List Message :=
  [{ role := "assistant", content := MessageContent.blocks response.content },
   { role := "user", content := MessageContent.results (executeTools response mgr).1 }]

theorem generateLoop_zero (gen : AIGenerator) (llm : LLM)
    (tool_manager : Option ToolManager) (tools : Option (List ToolDef))
    (system_content : String) (messages : List Message) (callCount : Nat) :
    generateLoop gen llm tool_manager tools system_content messages callCount 0 =
      (extractTextResponse (llm callCount),
       [mkFinalRequest gen messages system_content]) := rfl

theorem generateLoop_done (gen : AIGenerator) (llm : LLM)
    (tool_manager : Option ToolManager) (tools : Option (List ToolDef))
    (system_content : String) (messages : List Message) (callCount n : Nat)
    (h : (llm callCount).stop_reason = "end_turn" ∨
         (llm callCount).stop_reason = "max_tokens") :
    generateLoop gen llm tool_manager tools system_content messages callCount
        (n + 1) =
      (extractTextResponse (llm callCount),
       [mkLoopRequest gen tools messages system_content]) := by
  simp only [generateLoop]
  rw [if_pos h]

theorem generateLoop_other (gen : AIGenerator) (llm : LLM)
    (tool_manager : Option ToolManager) (tools : Option (List ToolDef))
    (system_content : String) (messages : List Message) (callCount n : Nat)
    (h1 : ¬((llm callCount).stop_reason = "end_turn" ∨
            (llm callCount).stop_reason = "max_tokens"))
    (h2 : (llm callCount).stop_reason ≠ "tool_use" ∨ tool_manager = none) :
    generateLoop gen llm tool_manager tools system_content messages callCount
        (n + 1) =
      (extractTextResponse (llm callCount),
       [mkLoopRequest gen tools messages system_content]) := by
  simp only [generateLoop]
  rw [if_neg h1]
  cases tool_manager with
  | none => rfl
  | some mgr =>
    rcases h2 with h2 | h2
    · simp only []
      rw [if_neg h2]
    · exact absurd h2 (by simp)

theorem generateLoop_tool_ok (gen : AIGenerator) (llm : LLM)
    (mgr : ToolManager) (tools : Option (List ToolDef))
    (system_content : String) (messages : List Message) (callCount n : Nat)
    (h2 : (llm callCount).stop_reason = "tool_use")
    (h3 : (executeTools (llm callCount) mgr).2 = false) :
    generateLoop gen llm (some mgr) tools system_content messages callCount
        (n + 1) =
      ((generateLoop gen llm (some mgr) tools system_content
          (messages ++ toolRoundAppend (llm callCount) mgr) (callCount + 1) n).1,
       mkLoopRequest gen tools messages system_content ::
         (generateLoop gen llm (some mgr) tools system_content
           (messages ++ toolRoundAppend (llm callCount) mgr) (callCount + 1) n).2) := by
  simp only [generateLoop]
  rw [if_neg (by rw [h2]; decide)]
  rw [if_pos h2, if_neg (by rw [h3]; decide)]
  rfl

theorem generateLoop_tool_error (gen : AIGenerator) (llm : LLM)
    (mgr : ToolManager) (tools : Option (List ToolDef))
    (system_content : String) (messages : List Message) (callCount n : Nat)
    (h2 : (llm callCount).stop_reason = "tool_use")
    (h3 : (executeTools (llm callCount) mgr).2 = true) :
    generateLoop gen llm (some mgr) tools system_content messages callCount
        (n + 1) =
      (extractTextResponse (llm (callCount + 1)),
       [mkLoopRequest gen tools messages system_content,
        mkFinalRequest gen (messages ++ toolRoundAppend (llm callCount) mgr)
          system_content]) := by
  simp only [generateLoop]
  rw [if_neg (by rw [h2]; decide)]
  rw [if_pos h2, if_pos h3]
  rfl

/-- Universal trace invariant of the loop: every outbound request extends
the entry message list by exactly two messages per completed tool round,
and always carries the given system content.  This holds for every oracle,
every tool manager and every stop-reason sequence. -/
theorem generateLoop_trace_invariant (gen : AIGenerator) (llm : LLM) :
    ∀ (roundsLeft : Nat) (tool_manager : Option ToolManager)
      (tools : Option (List ToolDef)) (system_content : String)
      (messages : List Message) (callCount i : Nat)
      (h : i < (generateLoop gen llm tool_manager tools system_content
              messages callCount roundsLeft).2.length),
      ∃ tail : List Message,
        ((generateLoop gen llm tool_manager tools system_content messages
            callCount roundsLeft).2[i]).messages = messages ++ tail ∧
        tail.length = 2 * i ∧
        ((generateLoop gen llm tool_manager tools system_content messages
            callCount roundsLeft).2[i]).system = system_content := by
  intro roundsLeft
  induction roundsLeft with
  | zero =>
    intro tm tools sys msgs c i h
    simp only [generateLoop_zero] at h ⊢
    simp only [List.length_cons, List.length_nil] at h
    have hi : i = 0 := by omega
    subst hi
    exact ⟨[], by simp [mkFinalRequest], by simp, by simp [mkFinalRequest]⟩
  | succ n ih =>
    intro tm tools sys msgs c i h
    by_cases hstop : (llm c).stop_reason = "end_turn" ∨
        (llm c).stop_reason = "max_tokens"
    · simp only [generateLoop_done gen llm tm tools sys msgs c n hstop] at h ⊢
      simp only [List.length_cons, List.length_nil] at h
      have hi : i = 0 := by omega
      subst hi
      exact ⟨[], by simp [mkLoopRequest_messages], by simp,
             by simp [mkLoopRequest_system]⟩
    · cases tm with
      | none =>
        simp only [generateLoop_other gen llm none tools sys msgs c n hstop
          (Or.inr rfl)] at h ⊢
        simp only [List.length_cons, List.length_nil] at h
        have hi : i = 0 := by omega
        subst hi
        exact ⟨[], by simp [mkLoopRequest_messages], by simp,
               by simp [mkLoopRequest_system]⟩
      | some mgr =>
        by_cases htool : (llm c).stop_reason = "tool_use"
        · cases herr : (executeTools (llm c) mgr).2 with
          | false =>
            simp only [generateLoop_tool_ok gen llm mgr tools sys msgs c n htool
              herr] at h ⊢
            cases i with
            | zero =>
              exact ⟨[], by simp [mkLoopRequest_messages], by simp,
                     by simp [mkLoopRequest_system]⟩
            | succ j =>
              simp only [List.length_cons] at h
              have hj : j < (generateLoop gen llm (some mgr) tools sys
                  (msgs ++ toolRoundAppend (llm c) mgr) (c + 1) n).2.length := by
                omega
              obtain ⟨tail, ht1, ht2, ht3⟩ := ih (some mgr) tools sys
                (msgs ++ toolRoundAppend (llm c) mgr) (c + 1) j hj
              refine ⟨toolRoundAppend (llm c) mgr ++ tail, ?_, ?_, ?_⟩
              · simpa [List.append_assoc] using ht1
              · simp only [List.length_append, ht2, toolRoundAppend,
                  List.length_cons, List.length_nil]
                omega
              · simpa using ht3
          | true =>
            simp only [generateLoop_tool_error gen llm mgr tools sys msgs c n htool
              herr] at h ⊢
            simp only [List.length_cons, List.length_nil] at h
            match i, h with
            | 0, _ =>
              exact ⟨[], by simp [mkLoopRequest_messages], by simp,
                     by simp [mkLoopRequest_system]⟩
            | 1, _ =>
              refine ⟨toolRoundAppend (llm c) mgr, by simp [mkFinalRequest],
                      ?_, by simp [mkFinalRequest]⟩
              simp [toolRoundAppend]
        · simp only [generateLoop_other gen llm (some mgr) tools sys msgs c n hstop
            (Or.inl htool)] at h ⊢
          simp only [List.length_cons, List.length_nil] at h
          have hi : i = 0 := by omega
          subst hi
          exact ⟨[], by simp [mkLoopRequest_messages], by simp,
                 by simp [mkLoopRequest_system]⟩

/-! ### Claim theorems about the orchestration loop -/

/-- C3: if the model's first response has a completion stop reason
(`end_turn` or `max_tokens`), `generate_response` makes exactly one
outbound LLM call and returns that response's extracted text. -/
theorem claim_C3_one_call_on_direct_completion (gen : AIGenerator) (llm : LLM)
    (query : String) (conversation_history : Option String)
    (tools : Option (List ToolDef)) (tool_manager : Option ToolManager)
    (h : (llm 0).stop_reason = "end_turn" ∨ (llm 0).stop_reason = "max_tokens") :
    (generate_response gen llm query conversation_history tools
        tool_manager).1 = extractTextResponse (llm 0) ∧
    (generate_response gen llm query conversation_history tools
        tool_manager).2.length = 1 := by
  unfold generate_response
  rw [show MAX_TOOL_ROUNDS = 1 + 1 from rfl]
  rw [generateLoop_done gen llm tool_manager tools _ _ 0 1 h]
  exact ⟨rfl, rfl⟩

/-- The generator instance used by the concrete witnesses. -/
def demoGen : AIGenerator := { model := "test-model" }

/-- A tool manager whose calls all succeed. -/
def demoOkManager : ToolManager := fun _ _ => Except.ok "Tool result content"

/-- An oracle that immediately completes with a text answer. -/
def demoDirectLLM : LLM := fun _ =>
  { stop_reason := "end_turn", content := [ContentBlock.text "Direct answer"] }

theorem claim_C3_witness :
    (generate_response demoGen demoDirectLLM "What is 2+2?" none none
        none).1 = extractTextResponse (demoDirectLLM 0) ∧
    (generate_response demoGen demoDirectLLM "What is 2+2?" none none
        none).2.length = 1 :=
  claim_C3_one_call_on_direct_completion demoGen demoDirectLLM "What is 2+2?"
    none none none (Or.inl rfl)

/-- C5: whenever a model response received in the loop — at any round,
after any number of preceding error-free tool rounds — has a stop reason
that is neither a completion nor a tool-call request, or is a tool-call
request received when no tool manager was supplied, it is treated as
completion: `generate_response` extracts and returns whatever text blocks
are present and makes no further LLM calls (the total call count is the
number of preceding rounds plus one). -/
theorem claim_C5_unexpected_stop_is_completion (gen : AIGenerator) (llm : LLM)
    (query : String) (conversation_history : Option String)
    (tools : Option (List ToolDef)) (tool_manager : Option ToolManager)
    (i : Nat) (hi : i < MAX_TOOL_ROUNDS)
    (hprev : ∀ j, j < i → (llm j).stop_reason = "tool_use")
    (htm : 0 < i → tool_manager.isSome = true)
    (hnoerr : ∀ j, j < i → ∀ mgr, tool_manager = some mgr →
      (executeTools (llm j) mgr).2 = false)
    (h1 : (llm i).stop_reason ≠ "end_turn")
    (h2 : (llm i).stop_reason ≠ "max_tokens")
    (h3 : (llm i).stop_reason ≠ "tool_use" ∨ tool_manager = none) :
    (generate_response gen llm query conversation_history tools
        tool_manager).1 = extractTextResponse (llm i) ∧
    (generate_response gen llm query conversation_history tools
        tool_manager).2.length = i + 1 := by
  unfold generate_response
  rw [show MAX_TOOL_ROUNDS = 1 + 1 from rfl]
  have hi2 : i < 2 := hi
  interval_cases i
  · rw [generateLoop_other gen llm tool_manager tools _ _ 0 1
      (not_or.mpr ⟨h1, h2⟩) h3]
    exact ⟨rfl, rfl⟩
  · obtain ⟨mgr, rfl⟩ := Option.isSome_iff_exists.mp (htm (by omega))
    have hne : (llm 1).stop_reason ≠ "tool_use" := by
      rcases h3 with hne | habs
      · exact hne
      · exact absurd habs (by simp)
    rw [generateLoop_tool_ok gen llm mgr tools _ _ 0 1
      (hprev 0 (by omega)) (hnoerr 0 (by omega) mgr rfl)]
    rw [show (1 : Nat) = 0 + 1 from rfl]
    rw [generateLoop_other gen llm (some mgr) tools _ _ 1 0
      (not_or.mpr ⟨h1, h2⟩) (Or.inl hne)]
    exact ⟨rfl, rfl⟩

/-- An oracle that requests a tool on the first call and then stops with
an unexpected stop reason. -/
def demoToolThenOtherLLM : LLM := fun n =>
  if n = 0 then
    { stop_reason := "tool_use",
      content := [ContentBlock.toolUse "tool-1" "search_course_content"
        [("query", "test")]] }
  else
    { stop_reason := "stop_sequence",
      content := [ContentBlock.text "partial"] }

theorem claim_C5_witness :
    (generate_response demoGen demoToolThenOtherLLM "Question" none
        (some ["search_course_content"]) (some demoOkManager)).1
      = extractTextResponse (demoToolThenOtherLLM 1) ∧
    (generate_response demoGen demoToolThenOtherLLM "Question" none
        (some ["search_course_content"]) (some demoOkManager)).2.length
      = 1 + 1 :=
  by
  refine claim_C5_unexpected_stop_is_completion demoGen demoToolThenOtherLLM
    "Question" none (some ["search_course_content"]) (some demoOkManager) 1
    (by decide) ?_ (fun _ => rfl) ?_ (by decide) (by decide)
    (Or.inl (by decide))
  · intro j hj
    interval_cases j
    rfl
  · intro j hj mgr hm
    rw [show mgr = demoOkManager from (Option.some.inj hm).symm]
    interval_cases j
    rfl

/-- C4: whenever a model response's stop reason indicates completion
(`end_turn` or `max_tokens`), after any number of preceding error-free
tool rounds, `generate_response` returns the concatenation of that
response's text-typed content blocks in emission order joined with
newlines, and makes no further LLM calls (the total call count is the
number of preceding rounds plus one). -/
theorem claim_C4_completion_returns_joined_text (gen : AIGenerator)
    (llm : LLM) (query : String) (conversation_history : Option String)
    (tools : Option (List ToolDef)) (tool_manager : Option ToolManager)
    (i : Nat) (hi : i < MAX_TOOL_ROUNDS)
    (hprev : ∀ j, j < i → (llm j).stop_reason = "tool_use")
    (htm : 0 < i → tool_manager.isSome = true)
    (hnoerr : ∀ j, j < i → ∀ mgr, tool_manager = some mgr →
      (executeTools (llm j) mgr).2 = false)
    (hdone : (llm i).stop_reason = "end_turn" ∨
             (llm i).stop_reason = "max_tokens") :
    (generate_response gen llm query conversation_history tools
        tool_manager).1 =
      String.intercalate "\n" ((llm i).content.filterMap fun b =>
        match b with
        | ContentBlock.text t => some t
        | ContentBlock.toolUse _ _ _ => none) ∧
    (generate_response gen llm query conversation_history tools
        tool_manager).2.length = i + 1 := by
  unfold generate_response
  rw [show MAX_TOOL_ROUNDS = 1 + 1 from rfl]
  have hi2 : i < 2 := hi
  interval_cases i
  · rw [generateLoop_done gen llm tool_manager tools _ _ 0 1 hdone]
    exact ⟨rfl, rfl⟩
  · obtain ⟨mgr, rfl⟩ := Option.isSome_iff_exists.mp (htm (by omega))
    rw [generateLoop_tool_ok gen llm mgr tools _ _ 0 1
      (hprev 0 (by omega)) (hnoerr 0 (by omega) mgr rfl)]
    rw [show (1 : Nat) = 0 + 1 from rfl]
    rw [generateLoop_done gen llm (some mgr) tools _ _ 1 0 hdone]
    exact ⟨rfl, rfl⟩

/-- An oracle that requests a tool on the first call and completes on the
second. -/
def demoOneRoundLLM : LLM := fun n =>
  if n = 0 then
    { stop_reason := "tool_use",
      content := [ContentBlock.toolUse "tool-1" "search_course_content"
        [("query", "test")]] }
  else
    { stop_reason := "end_turn",
      content := [ContentBlock.text "Final answer after tool"] }

theorem claim_C4_witness :
    (generate_response demoGen demoOneRoundLLM "Search for test" none
        (some ["search_course_content"]) (some demoOkManager)).1 =
      String.intercalate "\n" ((demoOneRoundLLM 1).content.filterMap fun b =>
        match b with
        | ContentBlock.text t => some t
        | ContentBlock.toolUse _ _ _ => none) ∧
    (generate_response demoGen demoOneRoundLLM "Search for test" none
        (some ["search_course_content"]) (some demoOkManager)).2.length
      = 1 + 1 :=
  claim_C4_completion_returns_joined_text demoGen demoOneRoundLLM
    "Search for test" none (some ["search_course_content"])
    (some demoOkManager) 1 (by decide)
    (fun j hj => by interval_cases j; rfl)
    (fun _ => rfl)
    (fun j hj mgr hm => by
      cases hm
      interval_cases j
      rfl)
    (Or.inl rfl)

theorem filterMap_resultFor_any_error (mgr : ToolManager)
    (l : List ContentBlock) :
    (l.filterMap (resultFor mgr)).any (fun res => res.is_error)
      = l.any (blockRaises mgr) := by
  induction l with
  | nil => rfl
  | cons b t ih =>
    cases b with
    | text s => simpa [resultFor, blockRaises] using ih
    | toolUse id name input =>
      cases h : mgr name input <;>
        simp [resultFor, blockRaises, h, ih]

/-- C1: if the model requests tools for `k` consecutive error-free rounds
(`0 < k ≤ MAX_TOOL_ROUNDS = 2`, and the response after round `k` is not a
tool request when `k < 2`), `generate_response` makes exactly `k + 1`
outbound LLM calls; when `k = MAX_TOOL_ROUNDS`, the final call's request
carries no tool schemas and no tool choice. -/
theorem claim_C1_k_rounds_k_plus_one_calls (gen : AIGenerator) (llm : LLM)
    (query : String) (conversation_history : Option String)
    (tools : Option (List ToolDef)) (mgr : ToolManager) (k : Nat)
    (hk0 : 0 < k) (hkR : k ≤ MAX_TOOL_ROUNDS)
    (htool : ∀ i, i < k → (llm i).stop_reason = "tool_use")
    (hnoerr : ∀ i, i < k → (executeTools (llm i) mgr).2 = false)
    (hstop : k < MAX_TOOL_ROUNDS → (llm k).stop_reason ≠ "tool_use") :
    (generate_response gen llm query conversation_history tools
        (some mgr)).2.length = k + 1 ∧
    (k = MAX_TOOL_ROUNDS →
      ((generate_response gen llm query conversation_history tools
          (some mgr)).2.getLast?).map (fun r => (r.tools, r.tool_choice))
        = some (none, none)) := by
  unfold generate_response
  rw [show MAX_TOOL_ROUNDS = 1 + 1 from rfl]
  have hk2 : k ≤ 2 := hkR
  interval_cases k
  · rw [generateLoop_tool_ok gen llm mgr tools _ _ 0 1 (htool 0 (by omega))
      (hnoerr 0 (by omega))]
    have hne : (llm 1).stop_reason ≠ "tool_use" := hstop (by decide)
    by_cases hdone : (llm 1).stop_reason = "end_turn" ∨
        (llm 1).stop_reason = "max_tokens"
    · rw [show (1 : Nat) = 0 + 1 from rfl,
        generateLoop_done gen llm (some mgr) tools _ _ 1 0 hdone]
      exact ⟨rfl, fun h12 => absurd h12 (by decide)⟩
    · rw [show (1 : Nat) = 0 + 1 from rfl,
        generateLoop_other gen llm (some mgr) tools _ _ 1 0 hdone
          (Or.inl hne)]
      exact ⟨rfl, fun h12 => absurd h12 (by decide)⟩
  · rw [generateLoop_tool_ok gen llm mgr tools _ _ 0 1 (htool 0 (by omega))
      (hnoerr 0 (by omega))]
    rw [show (1 : Nat) = 0 + 1 from rfl]
    rw [generateLoop_tool_ok gen llm mgr tools _ _ 1 0 (htool 1 (by omega))
      (hnoerr 1 (by omega))]
    rw [generateLoop_zero]
    exact ⟨rfl, fun _ => rfl⟩

/-- An oracle that requests a tool on every call. -/
def demoAllToolLLM : LLM := fun _ =>
  { stop_reason := "tool_use",
    content := [ContentBlock.toolUse "tool-1" "search_course_content"
      [("query", "test")]] }

theorem claim_C1_witness :
    (generate_response demoGen demoAllToolLLM "Keep searching" none
        (some ["search_course_content"]) (some demoOkManager)).2.length
      = 2 + 1 ∧
    (2 = MAX_TOOL_ROUNDS →
      ((generate_response demoGen demoAllToolLLM "Keep searching" none
          (some ["search_course_content"])
          (some demoOkManager)).2.getLast?).map
          (fun r => (r.tools, r.tool_choice)) = some (none, none)) :=
  claim_C1_k_rounds_k_plus_one_calls demoGen demoAllToolLLM "Keep searching"
    none (some ["search_course_content"]) demoOkManager 2 (by decide)
    (by decide) (fun i _ => rfl) (fun i _ => rfl)
    (fun h => absurd h (by decide))

/-- C2: if some tool execution raises in round `j` (after `j` error-free
tool rounds), `generate_response` makes exactly one more LLM call — the
total is `j + 2` regardless of remaining rounds — whose request carries no
tool schemas and no tool choice, returns that call's extracted text, and
the raised exception shows up as an error-tagged result for that round
rather than propagating (the embedding is total, so no exception ever
reaches the caller). -/
theorem claim_C2_tool_error_short_circuits (gen : AIGenerator) (llm : LLM)
    (query : String) (conversation_history : Option String)
    (tools : Option (List ToolDef)) (mgr : ToolManager) (j : Nat)
    (hj : j < MAX_TOOL_ROUNDS)
    (htool : ∀ i, i ≤ j → (llm i).stop_reason = "tool_use")
    (hnoerr : ∀ i, i < j → (executeTools (llm i) mgr).2 = false)
    (herr : (executeTools (llm j) mgr).2 = true) :
    (generate_response gen llm query conversation_history tools
        (some mgr)).2.length = j + 2 ∧
    ((generate_response gen llm query conversation_history tools
        (some mgr)).2.getLast?).map (fun r => (r.tools, r.tool_choice))
      = some (none, none) ∧
    (generate_response gen llm query conversation_history tools
        (some mgr)).1 = extractTextResponse (llm (j + 1)) ∧
    (executeTools (llm j) mgr).1.any (fun res => res.is_error) = true := by
  have hflag : (executeTools (llm j) mgr).1.any (fun res => res.is_error)
      = true := by
    rw [executeTools_eq] at herr ⊢
    rw [filterMap_resultFor_any_error]
    exact herr
  unfold generate_response
  rw [show MAX_TOOL_ROUNDS = 1 + 1 from rfl]
  have hj2 : j < 2 := hj
  interval_cases j
  · rw [generateLoop_tool_error gen llm mgr tools _ _ 0 1
      (htool 0 (by omega)) herr]
    exact ⟨rfl, rfl, rfl, hflag⟩
  · rw [generateLoop_tool_ok gen llm mgr tools _ _ 0 1 (htool 0 (by omega))
      (hnoerr 0 (by omega))]
    rw [show (1 : Nat) = 0 + 1 from rfl]
    rw [generateLoop_tool_error gen llm mgr tools _ _ 1 0
      (htool 1 (by omega)) herr]
    exact ⟨rfl, rfl, rfl, hflag⟩

/-- A tool manager that raises on every call. -/
def demoErrManager : ToolManager := fun _ _ => Except.error "Tool failed"

theorem claim_C2_witness :
    (generate_response demoGen demoAllToolLLM "Search something" none
        (some ["search_course_content"]) (some demoErrManager)).2.length
      = 0 + 2 ∧
    ((generate_response demoGen demoAllToolLLM "Search something" none
        (some ["search_course_content"]) (some demoErrManager)).2.getLast?).map
        (fun r => (r.tools, r.tool_choice)) = some (none, none) ∧
    (generate_response demoGen demoAllToolLLM "Search something" none
        (some ["search_course_content"]) (some demoErrManager)).1
      = extractTextResponse (demoAllToolLLM (0 + 1)) ∧
    (executeTools (demoAllToolLLM 0) demoErrManager).1.any
        (fun res => res.is_error) = true :=
  claim_C2_tool_error_short_circuits demoGen demoAllToolLLM
    "Search something" none (some ["search_course_content"]) demoErrManager
    0 (by decide) (fun i _ => rfl) (fun i hi => absurd hi (by omega)) rfl

/-! ### Exact shape of the accumulated conversation (C6) -/

/-- The messages appended by successive tool rounds starting at call index
`callCount`: the round making call `callCount` appends
`toolRoundAppend (llm callCount) mgr`. -/
def roundAppends (llm : LLM) (mgr : ToolManager) (callCount : Nat) :
    Nat → List Message
  | 0 => []
  | i + 1 =>
    toolRoundAppend (llm callCount) mgr ++ roundAppends llm mgr (callCount + 1) i

theorem roundAppends_snoc (llm : LLM) (mgr : ToolManager) :
    ∀ (i callCount : Nat),
      roundAppends llm mgr callCount (i + 1)
        = roundAppends llm mgr callCount i ++
            toolRoundAppend (llm (callCount + i)) mgr := by
  intro i
  induction i with
  | zero => intro c; simp [roundAppends]
  | succ i ih =>
    intro c
    rw [show roundAppends llm mgr c (i + 1 + 1)
        = toolRoundAppend (llm c) mgr ++ roundAppends llm mgr (c + 1) (i + 1)
      from rfl]
    rw [ih (c + 1)]
    rw [show roundAppends llm mgr c (i + 1)
        = toolRoundAppend (llm c) mgr ++ roundAppends llm mgr (c + 1) i
      from rfl]
    rw [show c + 1 + i = c + (i + 1) from by omega]
    simp [List.append_assoc]

/-- The conversation state before the `(i+1)`-th outbound call: the
original user query followed by, for each completed tool round, the
assistant's raw tool-call content and the synthetic user turn carrying
that round's tool results. -/
def conversationBefore (query : String) (llm : LLM) (mgr : ToolManager) :
    Nat → List Message
  | 0 => [{ role := "user", content := MessageContent.str query }]
  | i + 1 => conversationBefore query llm mgr i ++ toolRoundAppend (llm i) mgr

theorem conversationBefore_eq (query : String) (llm : LLM)
    (mgr : ToolManager) : ∀ i,
    conversationBefore query llm mgr i
      = [{ role := "user", content := MessageContent.str query }] ++
          roundAppends llm mgr 0 i := by
  intro i
  induction i with
  | zero => rfl
  | succ i ih =>
    rw [show conversationBefore query llm mgr (i + 1)
        = conversationBefore query llm mgr i ++ toolRoundAppend (llm i) mgr
      from rfl]
    rw [ih, roundAppends_snoc]
    simp [List.append_assoc]

theorem conversationBefore_length (query : String) (llm : LLM)
    (mgr : ToolManager) : ∀ i,
    (conversationBefore query llm mgr i).length = 1 + 2 * i := by
  intro i
  induction i with
  | zero => rfl
  | succ i ih =>
    rw [show conversationBefore query llm mgr (i + 1)
        = conversationBefore query llm mgr i ++ toolRoundAppend (llm i) mgr
      from rfl]
    simp only [List.length_append, ih, toolRoundAppend, List.length_cons,
      List.length_nil]
    omega

theorem conversationBefore_head (query : String) (llm : LLM)
    (mgr : ToolManager) (i : Nat) :
    (conversationBefore query llm mgr i).head?
      = some { role := "user", content := MessageContent.str query } := by
  rw [conversationBefore_eq]
  rfl

/-- The exact message list of every outbound request made by the loop:
the entry conversation followed by the appends of the completed rounds. -/
theorem generateLoop_messages_exact (gen : AIGenerator) (llm : LLM)
    (mgr : ToolManager) (tools : Option (List ToolDef))
    (system_content : String) :
    ∀ (roundsLeft : Nat) (messages : List Message) (callCount i : Nat)
      (h : i < (generateLoop gen llm (some mgr) tools system_content
              messages callCount roundsLeft).2.length),
      ((generateLoop gen llm (some mgr) tools system_content messages
          callCount roundsLeft).2[i]).messages
        = messages ++ roundAppends llm mgr callCount i := by
  intro roundsLeft
  induction roundsLeft with
  | zero =>
    intro msgs c i h
    simp only [generateLoop_zero] at h ⊢
    simp only [List.length_cons, List.length_nil] at h
    have hi : i = 0 := by omega
    subst hi
    simp [mkFinalRequest, roundAppends]
  | succ n ih =>
    intro msgs c i h
    by_cases hstop : (llm c).stop_reason = "end_turn" ∨
        (llm c).stop_reason = "max_tokens"
    · simp only [generateLoop_done gen llm (some mgr) tools system_content
        msgs c n hstop] at h ⊢
      simp only [List.length_cons, List.length_nil] at h
      have hi : i = 0 := by omega
      subst hi
      simp [mkLoopRequest_messages, roundAppends]
    · by_cases htool : (llm c).stop_reason = "tool_use"
      · cases herr : (executeTools (llm c) mgr).2 with
        | false =>
          simp only [generateLoop_tool_ok gen llm mgr tools system_content
            msgs c n htool herr] at h ⊢
          cases i with
          | zero => simp [mkLoopRequest_messages, roundAppends]
          | succ j =>
            simp only [List.length_cons] at h
            have hj : j < (generateLoop gen llm (some mgr) tools
                system_content (msgs ++ toolRoundAppend (llm c) mgr)
                (c + 1) n).2.length := by omega
            have hx := ih (msgs ++ toolRoundAppend (llm c) mgr) (c + 1) j hj
            simp only [List.getElem_cons_succ]
            rw [hx]
            rw [show roundAppends llm mgr c (j + 1)
                = toolRoundAppend (llm c) mgr ++ roundAppends llm mgr (c + 1) j
              from rfl]
            simp [List.append_assoc]
        | true =>
          simp only [generateLoop_tool_error gen llm mgr tools system_content
            msgs c n htool herr] at h ⊢
          simp only [List.length_cons, List.length_nil] at h
          match i, h with
          | 0, _ => simp [mkLoopRequest_messages, roundAppends]
          | 1, _ =>
            simp only [List.getElem_cons_succ, List.getElem_cons_zero]
            rw [show roundAppends llm mgr c 1
                = toolRoundAppend (llm c) mgr ++ roundAppends llm mgr (c + 1) 0
              from rfl]
            simp [mkFinalRequest, roundAppends]
      · simp only [generateLoop_other gen llm (some mgr) tools system_content
          msgs c n hstop (Or.inl htool)] at h ⊢
        simp only [List.length_cons, List.length_nil] at h
        have hi : i = 0 := by omega
        subst hi
        simp [mkLoopRequest_messages, roundAppends]

/-- C6: with a tool manager present, before the `(i+1)`-th outbound LLM
call the message history is exactly the original user query followed by,
for each completed tool round, the two appended messages (the assistant's
raw tool-call content, then one synthetic user turn carrying all of that
round's tool results); hence it has exactly `1 + 2*i` entries and its
first entry is always the original user query. -/
theorem claim_C6_two_messages_per_tool_round (gen : AIGenerator) (llm : LLM)
    (mgr : ToolManager) (query : String)
    (conversation_history : Option String) (tools : Option (List ToolDef))
    (i : Nat)
    (h : i < (generate_response gen llm query conversation_history tools
            (some mgr)).2.length) :
    ((generate_response gen llm query conversation_history tools
        (some mgr)).2[i]).messages = conversationBefore query llm mgr i ∧
    ((generate_response gen llm query conversation_history tools
        (some mgr)).2[i]).messages.length = 1 + 2 * i ∧
    ((generate_response gen llm query conversation_history tools
        (some mgr)).2[i]).messages.head?
      = some { role := "user", content := MessageContent.str query } := by
  unfold generate_response at h ⊢
  have hx := generateLoop_messages_exact gen llm mgr tools
    (buildSystemContent conversation_history) MAX_TOOL_ROUNDS
    [{ role := "user", content := MessageContent.str query }] 0 i h
  rw [hx, ← conversationBefore_eq]
  exact ⟨rfl, conversationBefore_length query llm mgr i,
         conversationBefore_head query llm mgr i⟩

theorem claim_C6_witness :
    ((generate_response demoGen demoOneRoundLLM "Original query" none
        (some ["get_course_outline"]) (some demoOkManager)).2.get
        ⟨1, by decide⟩).messages
      = conversationBefore "Original query" demoOneRoundLLM demoOkManager 1 ∧
    ((generate_response demoGen demoOneRoundLLM "Original query" none
        (some ["get_course_outline"]) (some demoOkManager)).2.get
        ⟨1, by decide⟩).messages.length = 1 + 2 * 1 ∧
    ((generate_response demoGen demoOneRoundLLM "Original query" none
        (some ["get_course_outline"]) (some demoOkManager)).2.get
        ⟨1, by decide⟩).messages.head?
      = some { role := "user", content := MessageContent.str "Original query" } :=
  claim_C6_two_messages_per_tool_round demoGen demoOneRoundLLM demoOkManager
    "Original query" none (some ["get_course_outline"]) 1 (by decide)

/-! ### The conversation history only reaches the system content (C10) -/

/-- Every outbound request of the loop carries the given system content. -/
theorem generateLoop_system_mem (gen : AIGenerator) (llm : LLM)
    (tool_manager : Option ToolManager) (tools : Option (List ToolDef))
    (system_content : String) (roundsLeft : Nat) (messages : List Message)
    (callCount : Nat) (r : APIRequest)
    (hr : r ∈ (generateLoop gen llm tool_manager tools system_content
        messages callCount roundsLeft).2) :
    r.system = system_content := by
  obtain ⟨i, hi, rfl⟩ := List.mem_iff_getElem.mp hr
  obtain ⟨tail, -, -, hsys⟩ := generateLoop_trace_invariant gen llm roundsLeft
    tool_manager tools system_content messages callCount i hi
  exact hsys

/-- The per-request message lists produced by the loop do not depend on
the system content. -/
theorem generateLoop_messages_sys_independent (gen : AIGenerator) (llm : LLM)
    (tools : Option (List ToolDef)) :
    ∀ (roundsLeft : Nat) (tool_manager : Option ToolManager)
      (messages : List Message) (callCount : Nat) (sys1 sys2 : String),
      ((generateLoop gen llm tool_manager tools sys1 messages callCount
          roundsLeft).2).map (fun r => r.messages)
        = ((generateLoop gen llm tool_manager tools sys2 messages callCount
            roundsLeft).2).map (fun r => r.messages) := by
  intro roundsLeft
  induction roundsLeft with
  | zero =>
    intro tm msgs c s1 s2
    simp [generateLoop_zero, mkFinalRequest]
  | succ n ih =>
    intro tm msgs c s1 s2
    by_cases hstop : (llm c).stop_reason = "end_turn" ∨
        (llm c).stop_reason = "max_tokens"
    · simp [generateLoop_done gen llm tm tools s1 msgs c n hstop,
        generateLoop_done gen llm tm tools s2 msgs c n hstop,
        mkLoopRequest_messages]
    · cases tm with
      | none =>
        simp [generateLoop_other gen llm none tools s1 msgs c n hstop
            (Or.inr rfl),
          generateLoop_other gen llm none tools s2 msgs c n hstop
            (Or.inr rfl),
          mkLoopRequest_messages]
      | some mgr =>
        by_cases htool : (llm c).stop_reason = "tool_use"
        · cases herr : (executeTools (llm c) mgr).2 with
          | false =>
            simp only [generateLoop_tool_ok gen llm mgr tools s1 msgs c n
                htool herr,
              generateLoop_tool_ok gen llm mgr tools s2 msgs c n htool herr,
              List.map_cons, mkLoopRequest_messages]
            rw [ih (some mgr) (msgs ++ toolRoundAppend (llm c) mgr) (c + 1)
              s1 s2]
          | true =>
            simp [generateLoop_tool_error gen llm mgr tools s1 msgs c n
                htool herr,
              generateLoop_tool_error gen llm mgr tools s2 msgs c n htool
                herr,
              mkLoopRequest_messages, mkFinalRequest]
        · simp [generateLoop_other gen llm (some mgr) tools s1 msgs c n
              hstop (Or.inl htool),
            generateLoop_other gen llm (some mgr) tools s2 msgs c n hstop
              (Or.inl htool),
            mkLoopRequest_messages]

/-- The first outbound request of the loop always carries the entry
message list. -/
theorem generateLoop_head_messages (gen : AIGenerator) (llm : LLM)
    (tool_manager : Option ToolManager) (tools : Option (List ToolDef))
    (system_content : String) (roundsLeft : Nat) (messages : List Message)
    (callCount : Nat) :
    ((generateLoop gen llm tool_manager tools system_content messages
        callCount roundsLeft).2).head?.map (fun r => r.messages)
      = some messages := by
  cases roundsLeft with
  | zero => simp [generateLoop_zero, mkFinalRequest]
  | succ n =>
    by_cases hstop : (llm callCount).stop_reason = "end_turn" ∨
        (llm callCount).stop_reason = "max_tokens"
    · simp [generateLoop_done gen llm tool_manager tools system_content
        messages callCount n hstop, mkLoopRequest_messages]
    · cases tool_manager with
      | none =>
        simp [generateLoop_other gen llm none tools system_content messages
          callCount n hstop (Or.inr rfl), mkLoopRequest_messages]
      | some mgr =>
        by_cases htool : (llm callCount).stop_reason = "tool_use"
        · cases herr : (executeTools (llm callCount) mgr).2 with
          | false =>
            simp [generateLoop_tool_ok gen llm mgr tools system_content
              messages callCount n htool herr, mkLoopRequest_messages]
          | true =>
            simp [generateLoop_tool_error gen llm mgr tools system_content
              messages callCount n htool herr, mkLoopRequest_messages]
        · simp [generateLoop_other gen llm (some mgr) tools system_content
            messages callCount n hstop (Or.inl htool),
            mkLoopRequest_messages]

/-- C10: the conversation history never appears in the message list sent
to the LLM: the per-request message lists are identical to those of a
history-free run, every request's system content is the system prompt
followed by a `Previous conversation:` section when a non-empty history is
given, an empty-string history behaves exactly like an absent one (bare
system prompt), and the message list always begins as a single user turn
containing exactly the query string. -/
theorem claim_C10_history_only_in_system (gen : AIGenerator) (llm : LLM)
    (query : String) (tools : Option (List ToolDef))
    (tool_manager : Option ToolManager) (h : String) (hne : h ≠ "") :
    ((generate_response gen llm query (some h) tools tool_manager).2).map
        (fun r => r.messages)
      = ((generate_response gen llm query none tools tool_manager).2).map
          (fun r => r.messages) ∧
    ((generate_response gen llm query (some h) tools tool_manager).2).all
        (fun r => r.system
          == SYSTEM_PROMPT ++ "\n\nPrevious conversation:\n" ++ h) = true ∧
    ((generate_response gen llm query none tools tool_manager).2).all
        (fun r => r.system == SYSTEM_PROMPT) = true ∧
    generate_response gen llm query (some "") tools tool_manager
      = generate_response gen llm query none tools tool_manager ∧
    ((generate_response gen llm query (some h) tools
        tool_manager).2).head?.map (fun r => r.messages)
      = some [{ role := "user", content := MessageContent.str query }] := by
  refine ⟨?_, ?_, ?_, ?_, ?_⟩
  · unfold generate_response
    exact generateLoop_messages_sys_independent gen llm tools MAX_TOOL_ROUNDS
      tool_manager _ 0 _ _
  · rw [List.all_eq_true]
    intro r hr
    unfold generate_response at hr
    have hs := generateLoop_system_mem gen llm tool_manager tools
      (buildSystemContent (some h)) MAX_TOOL_ROUNDS _ 0 r hr
    rw [beq_iff_eq, hs]
    simp [buildSystemContent, hne]
  · rw [List.all_eq_true]
    intro r hr
    unfold generate_response at hr
    have hs := generateLoop_system_mem gen llm tool_manager tools
      (buildSystemContent none) MAX_TOOL_ROUNDS _ 0 r hr
    rw [beq_iff_eq, hs]
    rfl
  · unfold generate_response
    rw [show buildSystemContent (some "") = buildSystemContent none from by
      simp [buildSystemContent]]
  · unfold generate_response
    exact generateLoop_head_messages gen llm tool_manager tools _
      MAX_TOOL_ROUNDS _ 0

theorem claim_C10_witness :
    ((generate_response demoGen demoOneRoundLLM "Follow-up question"
        (some "Earlier chat") (some ["search_course_content"])
        (some demoOkManager)).2).map (fun r => r.messages)
      = ((generate_response demoGen demoOneRoundLLM "Follow-up question"
          none (some ["search_course_content"])
          (some demoOkManager)).2).map (fun r => r.messages) ∧
    ((generate_response demoGen demoOneRoundLLM "Follow-up question"
        (some "Earlier chat") (some ["search_course_content"])
        (some demoOkManager)).2).all
        (fun r => r.system
          == SYSTEM_PROMPT ++ "\n\nPrevious conversation:\n" ++ "Earlier chat")
      = true ∧
    ((generate_response demoGen demoOneRoundLLM "Follow-up question" none
        (some ["search_course_content"]) (some demoOkManager)).2).all
        (fun r => r.system == SYSTEM_PROMPT) = true ∧
    generate_response demoGen demoOneRoundLLM "Follow-up question"
        (some "") (some ["search_course_content"]) (some demoOkManager)
      = generate_response demoGen demoOneRoundLLM "Follow-up question" none
          (some ["search_course_content"]) (some demoOkManager) ∧
    ((generate_response demoGen demoOneRoundLLM "Follow-up question"
        (some "Earlier chat") (some ["search_course_content"])
        (some demoOkManager)).2).head?.map (fun r => r.messages)
      = some [{ role := "user",
                content := MessageContent.str "Follow-up question" }] :=
  claim_C10_history_only_in_system demoGen demoOneRoundLLM
    "Follow-up question" (some ["search_course_content"])
    (some demoOkManager) "Earlier chat" (by decide)

/-! ### Catalog store result-limit configuration (C8)

The repository's `vector_store.py` is not among the provided source files —
only its tests reference it — so the store's construction and search are
modelled from the spec, as the following doc comments record. -/

/-- Whether an `Except` computation succeeded. -/
def exceptIsOk {ε α : Type} : Except ε α → Bool
  | Except.ok _ => true
  | Except.error _ => false

/-- A search result set: an ordered document sequence plus an optional
error field. -/
structure SearchResults where
  documents : List String
  error : Option String
  deriving DecidableEq, Repr

/-- Modelled from the spec: the underlying index's similarity search
(`vector_store.py` is missing from the sources) "must fail fast
(configuration error) if the limit is non-positive"; with a positive
limit it returns up to that many stored passages.  Semantic ranking is
abstracted to taking the first matches. -/
def chromaQuery (chunks : List String) (query : String) (n_results : Int) :
    Except String (List String) :=
  if n_results ≤ 0 then
    Except.error "Number of requested results cannot be non-positive"
  else Except.ok (chunks.take n_results.toNat)

/-- Modelled from the spec: the catalog store holds indexed content
passages and a configured maximum result count (`vector_store.py` is
missing from the sources). -/
structure VectorStore where
  chunks : List String
  max_results : Int
  deriving DecidableEq, Repr

/-- Modelled from the spec: "a limit of zero is an invalid configuration
and must fail fast at store construction (not at query time)"
(`vector_store.py` is missing from the sources), so constructing the store
rejects a non-positive result limit as a configuration error. -/
def mkVectorStore (chunks : List String) (max_results : Int) :
    Except String VectorStore :=
  if max_results ≤ 0 then
    Except.error "max_results must be positive (configuration error)"
  else Except.ok { chunks := chunks, max_results := max_results }

/-- Modelled from the spec: `search` performs the index call with the
configured maximum result count (`vector_store.py` is missing from the
sources); an index failure would surface at query time. -/
def VectorStore.search (store : VectorStore) (query : String) :
    Except String SearchResults :=
  match chromaQuery store.chunks query store.max_results with
  | Except.ok docs => Except.ok { documents := docs, error := none }
  | Except.error e => Except.error e

/-- C8: constructing the catalog store with a non-positive result limit
fails fast at construction time (a configuration error), and search with
a non-positive configured limit never fails at query time: every
successfully constructed store has a positive limit and its searches
always succeed. -/
theorem claim_C8_limit_fails_at_construction_not_query
    (chunks : List String) (m1 m2 : Int) (q : String) (store : VectorStore)
    (h1 : m1 ≤ 0)
    (h2 : mkVectorStore chunks m2 = Except.ok store) :
    exceptIsOk (mkVectorStore chunks m1) = false ∧
    exceptIsOk (store.search q) = true ∧
    0 < store.max_results := by
  have hm2 : ¬m2 ≤ 0 := by
    intro hle
    simp [mkVectorStore, if_pos hle] at h2
  have hstore : store = { chunks := chunks, max_results := m2 } := by
    simp only [mkVectorStore, if_neg hm2, Except.ok.injEq] at h2
    exact h2.symm
  subst hstore
  refine ⟨?_, ?_, ?_⟩
  · simp [mkVectorStore, if_pos h1, exceptIsOk]
  · simp [VectorStore.search, chromaQuery, if_neg hm2, exceptIsOk]
  · show (0 : Int) < m2
    omega

theorem claim_C8_witness :
    exceptIsOk (mkVectorStore ["passage one", "passage two"] 0) = false ∧
    exceptIsOk ((VectorStore.mk ["passage one", "passage two"] 5).search
      "test query") = true ∧
    0 < (VectorStore.mk ["passage one", "passage two"] 5).max_results :=
  claim_C8_limit_fails_at_construction_not_query
    ["passage one", "passage two"] 0 5 "test query"
    (VectorStore.mk ["passage one", "passage two"] 5) (by decide) rfl

end RagChatbot
